import Mathlib

/-!
Shallow embedding of the evmone-go host layer of this repository
(`core/evmone-go/host_impl.go`): the storage-status classifier, the
self-destruct host method, log emission, the message-call handler
`handleCalls`, and the create path of `Call`.

The account/storage backend (`evmtypes.IntraBlockState`), the EVMC enums
(`StorageStatus`, `CallKind`, `Revision`), the `vm` error values, the
`params` constants and the address-derivation functions live in parts of
the repository that are not under `src/`; they are modelled from the
spec where marked. The external interpreter (`Execute`, a C FFI call
into evmone) is modelled as a parameter carrying its outcome, per the
spec's "opaque ExecutionEngine capability" design note.
-/

namespace EvmoneGo

/-- Account addresses (20-byte values in the source, abstracted to `Nat`). -/
abbrev Addr := Nat

/-- 256-bit words (`uint256.Int` / `common.Hash` values, abstracted to `Nat`;
zero-ness tests map to `= 0`). -/
abbrev Word := Nat

/-- Modelled from the spec: the EVMC `StorageStatus` enum returned by
`SetStorage` (data model §3); constructors named after the Go constants
`StorageAssigned`, `StorageAdded`, ... from the missing evmone-go enum file. -/
inductive StorageStatus where
  | assigned
  | added
  | deleted
  | modified
  | deletedAdded
  | modifiedDeleted
  | deletedRestored
  | addedDeleted
  | modifiedRestored
  deriving DecidableEq, Repr

/-- Modelled from the spec: the EVMC `CallKind` enum (`Call, DelegateCall,
CallCode, Create, Create2, EofCreate`) from the missing evmone-go enum file. -/
inductive CallKind where
  | Call
  | DelegateCall
  | CallCode
  | Create
  | Create2
  | EofCreate
  deriving DecidableEq, Repr

/-- Modelled from the spec: the EVMC `Revision` enum from the missing
evmone-go enum file, as a `Nat` so that the source's `h.rev >= Cancun`
comparison carries over. -/
abbrev Revision := Nat

def Frontier : Revision := 0
def Petersburg : Revision := 6
def Istanbul : Revision := 7
def Berlin : Revision := 8
def London : Revision := 9
def Shanghai : Revision := 11
def Cancun : Revision := 12
def Prague : Revision := 13

/-- The `vm.Err*` error values of the host layer (erigon's `core/vm` errors,
not under `src/`; the taxonomy is spec §7). `fault n` stands for the generic
execution faults bubbled up unchanged from the interpreter. -/
inductive Err where
  | insufficientBalance
  | nonceUintOverflow
  | contractAddressCollision
  | maxCodeSizeExceeded
  | invalidCode
  | codeStoreOutOfGas
  | executionReverted
  | fault (n : Nat)
  deriving DecidableEq, Repr

/-- A log record (`types.Log`), restricted to the fields `EmitLog` sets. -/
structure Log where
  address : Addr
  topics : List Word
  data : List Nat
  blockNumber : Nat
  deriving DecidableEq, Repr

/-- Point update of a one-argument table. -/
def upd {α : Type} (f : Nat → α) (x : Nat) (v : α) : Nat → α :=
  fun y => if y = x then v else f y

/-- Point update of a two-argument table. -/
def upd2 {α : Type} (f : Nat → Nat → α) (x k : Nat) (v : α) : Nat → Nat → α :=
  fun y => if y = x then upd (f y) k v else f y

/-- Modelled from the spec: the account/storage backend
(`evmtypes.IntraBlockState`, erigon `core/state`, not under `src/`): account
CRUD, current vs. committed storage, the transaction access list, logs,
self-destruct marks, and the created-in-this-transaction mark used by the
EIP-6780 regime (spec §4.2, §4.3, §4.6, §6). -/
structure IBS where
  balance : Addr → Word
  nonce : Addr → Nat
  code : Addr → List Nat
  storage : Addr → Nat → Word
  origStorage : Addr → Nat → Word
  alive : Addr → Bool
  accessList : Addr → Bool
  logs : List Log
  destructed : Addr → Bool
  createdInTx : Addr → Bool

/-- Modelled from the spec: `IntraBlockState.SetState`. -/
def setState (a : Addr) (k : Nat) (v : Word) (s : IBS) : IBS :=
  { s with storage := upd2 s.storage a k v }

/-- Modelled from the spec: `IntraBlockState.SetNonce`. -/
def setNonce (a : Addr) (n : Nat) (s : IBS) : IBS :=
  { s with nonce := upd s.nonce a n }

/-- Modelled from the spec: `IntraBlockState.SetCode`. -/
def setCode (a : Addr) (c : List Nat) (s : IBS) : IBS :=
  { s with code := upd s.code a c }

/-- Modelled from the spec: `IntraBlockState.AddBalance`. -/
def addBalance (a : Addr) (v : Word) (s : IBS) : IBS :=
  { s with balance := upd s.balance a (s.balance a + v) }

/-- Modelled from the spec: `IntraBlockState.SubBalance` (the source only
subtracts amounts bounded by the balance, so truncated subtraction agrees). -/
def subBalance (a : Addr) (v : Word) (s : IBS) : IBS :=
  { s with balance := upd s.balance a (s.balance a - v) }

/-- Modelled from the spec: `IntraBlockState.AddAddressToAccessList`
(first-touch-per-transaction warm set, spec §4.2), state effect only. -/
def addAddressToAccessList (a : Addr) (s : IBS) : IBS :=
  { s with accessList := upd s.accessList a true }

/-- Modelled from the spec: `IntraBlockState.AddLog` appends the record. -/
def addLog (l : Log) (s : IBS) : IBS :=
  { s with logs := s.logs ++ [l] }

/-- Modelled from the spec: `IntraBlockState.CreateAccount(addr,
contractCreation)` materializes a fresh account, keeping the balance; with
`contractCreation` it bumps the storage incarnation (fresh storage) and marks
the account as created within the current transaction (spec §4.5 step 5,
§4.6). -/
def createAccount (a : Addr) (contractCreation : Bool) (s : IBS) : IBS :=
  { s with
    alive := upd s.alive a true
    nonce := upd s.nonce a 0
    code := upd s.code a []
    storage := fun y => if y = a then fun _ => 0 else s.storage y
    origStorage := fun y => if y = a then fun _ => 0 else s.origStorage y
    createdInTx := if contractCreation then upd s.createdInTx a true else s.createdInTx }

/-- Modelled from the spec: `evm.Context.CanTransfer` (erigon core, not under
`src/`): the sender's balance covers the amount. -/
def canTransfer (s : IBS) (sender : Addr) (value : Word) : Prop :=
  value ≤ s.balance sender

instance (s : IBS) (sender : Addr) (value : Word) : Decidable (canTransfer s sender value) :=
  inferInstanceAs (Decidable (value ≤ s.balance sender))

/-- Modelled from the spec: `evm.Context.Transfer` (erigon core, not under
`src/`): debit the sender unless bailout semantics were requested, credit the
recipient. -/
def transfer (sender recipient : Addr) (value : Word) (bailout : Bool) (s : IBS) : IBS :=
  addBalance recipient value (if bailout then s else subBalance sender value s)

/-- Modelled from the spec: `params.MaxCodeSize` (EIP-170). -/
def MaxCodeSize : Nat := 24576

/-- Modelled from the spec: `params.CreateDataGas`, the per-byte code-storage
cost of spec §4.4 step 3. -/
def CreateDataGas : Nat := 200

/-- Fork-rule switches (`chain.Rules`, not under `src/`), restricted to the
flags `host_impl.go` consults. -/
structure Rules where
  isHomestead : Bool
  isSpuriousDragon : Bool
  isBerlin : Bool
  isLondon : Bool
  isAura : Bool

/-- `vm.Config`, restricted to the fields `host_impl.go` consults:
`RestoreState` (forced rollback) and the `HasEip3860(rules)` predicate. -/
structure Config where
  restoreState : Bool
  hasEip3860 : Bool

/-- Outcome of running a precompiled contract
(`vm.RunPrecompiledContract`): output, gas left, error. -/
structure PrecompileRes where
  output : List Nat
  gasLeft : Nat
  err : Option Err
  deriving DecidableEq, Repr

/-- Outcome of the external interpreter (`HostImpl.Execute`, the C FFI call
into evmone): modelled as data supplied to the host, per the spec's opaque
ExecutionEngine design note (§9). -/
structure ExecResult where
  output : List Nat
  gasLeft : Int
  gasRefund : Int
  err : Option Err
  deriving DecidableEq, Repr

/-- The named returns of `HostImpl.Call` / `HostImpl.handleCalls`:
`(output, gasLeft, gasRefund, createAddr, err)`. -/
structure CallRes where
  output : List Nat
  gasLeft : Int
  gasRefund : Int
  createAddr : Addr
  err : Option Err
  deriving DecidableEq, Repr

/-- The `HostImpl` receiver fields the claims depend on: fork rules, config,
EVMC revision, bailout flag, transaction origin, block number, and the
precompile set (`evm.Precompile` combined with `vm.RunPrecompiledContract`,
modelled as a partial map from address to the run function). -/
structure Host where
  rules : Rules
  config : Config
  rev : Revision
  bailout : Bool
  txOrigin : Addr
  blockNumber : Nat
  precompiles : Addr → Option (List Nat → Nat → PrecompileRes)

/-- `HostImpl.SetStorage` (`host_impl.go` lines 86-132): classify the
(original, current, new) triple into a `StorageStatus`, starting from
`StorageAssigned` and overwriting it in the branches exactly as the source
does, then unconditionally write the new value into current storage. -/
def SetStorage (s : IBS) (a : Addr) (k : Nat) (v : Word) : StorageStatus × IBS :=
  let current := s.storage a k
  let original := s.origStorage a k
  let dirty : Prop := ¬ (original = current)
  let restored : Prop := original = v
  let currentIsZero : Prop := current = 0
  let valueIsZero : Prop := v = 0
  let status : StorageStatus :=
    if ¬ dirty ∧ ¬ restored then
      if currentIsZero then .added
      else if valueIsZero then .deleted
      else .modified
    else if dirty ∧ ¬ restored then
      if currentIsZero ∧ ¬ valueIsZero then .deletedAdded
      else if ¬ currentIsZero ∧ valueIsZero then .modifiedDeleted
      else .assigned
    else if dirty ∧ restored then
      if currentIsZero then .deletedRestored
      else if valueIsZero then .addedDeleted
      else .modifiedRestored
    else .assigned
  (status, setState a k v s)

/-- Modelled from the spec: `IntraBlockState.Selfdestruct` (legacy regime,
spec §4.6): mark the account destructed (removal deferred), zero its balance,
and report whether the account existed. -/
def ibsSelfdestruct (a : Addr) (s : IBS) : Bool × IBS :=
  if s.alive a then
    (true, { s with destructed := upd s.destructed a true, balance := upd s.balance a 0 })
  else
    (false, s)

/-- Modelled from the spec: `IntraBlockState.Selfdestruct6780` (EIP-6780
regime, spec §4.6): mark the account destructed only if it was created within
the same transaction; otherwise do nothing. -/
def selfdestruct6780 (a : Addr) (s : IBS) : IBS :=
  if s.alive a && s.createdInTx a then (ibsSelfdestruct a s).2 else s

/-- `HostImpl.Selfdestruct` (`host_impl.go` lines 150-164): at or above
Cancun, move the whole balance to the beneficiary, run the EIP-6780
conditional destruct, and return `HasSelfdestructed`; below Cancun, credit
the beneficiary and run the unconditional legacy destruct. -/
def Selfdestruct (h : Host) (s : IBS) (addr beneficiary : Addr) : Bool × IBS :=
  if h.rev ≥ Cancun then
    let balance := s.balance addr
    let s1 := subBalance addr balance s
    let s2 := addBalance beneficiary balance s1
    let s3 := selfdestruct6780 addr s2
    (s3.destructed addr, s3)
  else
    let balance := s.balance addr
    let s1 := addBalance beneficiary balance s
    ibsSelfdestruct addr s1

/-- `HostImpl.EmitLog` (`host_impl.go` lines 196-206): add a log record whose
address field is the transaction origin from the transaction context (the
`addr` argument is unused by the source), with topics and data passed
through and the block number attached. -/
def EmitLog (h : Host) (s : IBS) (_addr : Addr) (topics : List Word) (data : List Nat) : IBS :=
  addLog { address := h.txOrigin, topics := topics, data := data,
           blockNumber := h.blockNumber } s

/-- `HostImpl.handleCalls` (`host_impl.go` lines 208-296), for the kinds
`Call`, `CallCode`, `DelegateCall`. The interpreter outcome (the `Execute`
FFI call) is the `execRes` parameter. The source's line 288 assigns `gas = 0`
on the punitive-revert path, but `gas` is the `uint64` parameter, not the
`gasLeft` named return, so that assignment has no effect on the returned
values and no counterpart here. -/
def handleCalls (h : Host) (s : IBS) (kind : CallKind) (recipient sender : Addr)
    (value : Word) (input : List Nat) (gas : Nat)
    (codeAddress : Addr) (execRes : ExecResult) : CallRes × IBS :=
  let gasLeft : Int := Int.ofNat gas
  if (kind = CallKind.Call ∨ kind = CallKind.CallCode) ∧
      ¬ value = 0 ∧ ¬ canTransfer s sender value ∧ ¬ h.bailout then
    (⟨[], gasLeft, 0, 0, some Err.insufficientBalance⟩, s)
  else
    let pre := h.precompiles codeAddress
    let isPrecompile := pre.isSome
    let code := if isPrecompile then [] else s.code codeAddress
    let snapshot := s
    if kind = CallKind.Call ∧ ¬ s.alive recipient ∧
        ¬ isPrecompile ∧ h.rules.isSpuriousDragon ∧ value = 0 then
      (⟨[], gasLeft, 0, 0, none⟩, s)
    else
      let s1 :=
        if kind = CallKind.Call then
          let s0 := if s.alive recipient then s else createAccount recipient false s
          transfer sender recipient value h.bailout s0
        else s
      let (output, gasLeft, gasRefund, err) :=
        match pre with
        | some p =>
            let r := p input gas
            (r.output, Int.ofNat r.gasLeft, (0 : Int), r.err)
        | none =>
            if code = [] then (([] : List Nat), gasLeft, (0 : Int), (none : Option Err))
            else (execRes.output, execRes.gasLeft, execRes.gasRefund, execRes.err)
      let s2 :=
        if ¬ err = none ∨ h.config.restoreState then snapshot else s1
      (⟨output, gasLeft, gasRefund, 0, err⟩, s2)

/-- Modelled from the spec: `crypto.CreateAddress` (not under `src/`), the
deterministic derivation of a `Create` recipient from the sender and the
sender's current nonce (Keccak/RLP-based in the source; an injective pairing
stands in for it, since only determinism and distinctness are observable at
this layer). -/
def createAddress (sender : Addr) (nonce : Nat) : Addr :=
  Nat.pair sender nonce + 1

/-- Modelled from the spec: `crypto.Keccak256Hash` of the init code (not
under `src/`), abstracted to a deterministic digest of the byte list. -/
def keccak256 (bs : List Nat) : Nat :=
  bs.foldl (fun h b => h * 257 + b % 256 + 1) 1

/-- Modelled from the spec: `crypto.CreateAddress2` (not under `src/`), the
deterministic derivation of a `Create2` recipient from sender, salt and the
init-code hash. -/
def createAddress2 (sender : Addr) (salt : Word) (codeHash : Nat) : Addr :=
  Nat.pair sender (Nat.pair salt codeHash) + 2

/-- Modelled from the spec: the collision test of `host_impl.go` lines
369-370. `GetCodeHash` (IntraBlockState, not under `src/`) returns the zero
hash for a non-existent account and `emptyCodeHash` for an existing account
with empty code, so `hash != zero && hash != emptyCodeHash` holds exactly
when the account exists with non-empty code. -/
def hasNonEmptyCodeHash (s : IBS) (a : Addr) : Bool :=
  s.alive a && !(s.code a).isEmpty

/-- The state after the unconditional sender-nonce increment
(`host_impl.go` line 361) and the pre-snapshot Berlin access-list warm-up of
the derived recipient (lines 363-367). -/
def createPrestate (h : Host) (s : IBS) (sender recipient : Addr) : IBS :=
  let s1 := setNonce sender ((s.nonce sender + 1) % 2 ^ 64) s
  if h.rules.isBerlin then addAddressToAccessList recipient s1 else s1

/-- `HostImpl.Call` (`host_impl.go` lines 298-438). Message-call kinds are
delegated to `handleCalls`; creation kinds derive the recipient, run the
balance / nonce-overflow / collision prechecks, snapshot, materialize the
account, transfer, run the interpreter (outcome `execRes`), validate the
deployed code (EIP-170 with the Aura exception, EIP-3541, code-storage gas)
and decide revert. The `createAddr` component of the result is the named
return of the source, which is never assigned, hence always the zero
address. -/
def Call (h : Host) (s : IBS) (kind : CallKind) (recipient sender : Addr)
    (value : Word) (input : List Nat) (gas : Int) (salt : Word)
    (codeAddress : Addr) (execRes : ExecResult) : CallRes × IBS :=
  if kind = CallKind.Call ∨ kind = CallKind.DelegateCall ∨ kind = CallKind.CallCode then
    handleCalls h s kind recipient sender value input gas.toNat codeAddress execRes
  else
    let recipient :=
      if kind = CallKind.Create then createAddress sender (s.nonce sender)
      else if kind = CallKind.Create2 then createAddress2 sender salt (keccak256 input)
      else recipient
    -- The source's `code = input` (and the clearing of `input`) only feeds the
    -- external `Execute` call, whose outcome is the `execRes` parameter here.
    if ¬ canTransfer s sender value then
      (⟨[], gas, 0, 0, some Err.insufficientBalance⟩, s)
    else
      let nonce := s.nonce sender
      if (nonce + 1) % 2 ^ 64 < nonce then
        (⟨[], gas, 0, 0, some Err.nonceUintOverflow⟩, s)
      else
        let s2 := createPrestate h s sender recipient
        if ¬ s2.nonce recipient = 0 ∨ hasNonEmptyCodeHash s2 recipient then
          (⟨[], gas, 0, 0, some Err.contractAddressCollision⟩, s2)
        else
          let snapshot := s2
          let s3 := createAccount recipient true s2
          let s4 := if h.rules.isSpuriousDragon then setNonce recipient 1 s3 else s3
          let s5 := transfer sender recipient value false s4
          let ret := execRes.output
          let gasLeft := execRes.gasLeft
          let gasRefund := execRes.gasRefund
          let err := execRes.err
          let err :=
            if err = none ∧ h.rules.isSpuriousDragon ∧ MaxCodeSize < ret.length ∧
                (¬ h.rules.isAura ∨ h.config.hasEip3860) then
              some Err.maxCodeSizeExceeded
            else err
          let err :=
            if err = none ∧ h.rules.isLondon ∧ 1 ≤ ret.length ∧ ret.headD 0 = 0xEF then
              some Err.invalidCode
            else err
          let stored :=
            if err = none then
              let createDataGas : Int := Int.ofNat (ret.length * CreateDataGas)
              if createDataGas ≤ gasLeft then
                ((none : Option Err), gasLeft - createDataGas, setCode recipient ret s5)
              else if h.rules.isHomestead then
                (some Err.codeStoreOutOfGas, gasLeft, s5)
              else ((none : Option Err), gasLeft, s5)
            else (err, gasLeft, s5)
          let err := stored.1
          let gasLeft := stored.2.1
          let s6 := stored.2.2
          let s7 :=
            if ¬ err = none ∧ (h.rules.isHomestead ∨ ¬ err = some Err.codeStoreOutOfGas) then
              snapshot
            else s6
          (⟨ret, gasLeft, gasRefund, 0, err⟩, s7)

/-! ### Concrete fixtures used by witnesses and counterexamples -/

/-- A fork-rule set with every consulted fork active and the Aura exception off. -/
def allRules : Rules := ⟨true, true, true, true, false⟩

/-- A host with `allRules`, no forced rollback, EIP-3860 on, Cancun revision,
no bailout, and no precompiles. -/
def host1 : Host :=
  { rules := allRules, config := ⟨false, true⟩, rev := Cancun, bailout := false,
    txOrigin := 9, blockNumber := 5, precompiles := fun _ => none }

/-- The empty backend state. -/
def st0 : IBS :=
  { balance := fun _ => 0, nonce := fun _ => 0, code := fun _ => [],
    storage := fun _ _ => 0, origStorage := fun _ _ => 0, alive := fun _ => false,
    accessList := fun _ => false, logs := [], destructed := fun _ => false,
    createdInTx := fun _ => false }

/-- A state where account 1 is alive with balance 7 and was not created in the
current transaction, and account 2 is alive with balance 3. -/
def stSd : IBS :=
  { st0 with alive := upd (upd st0.alive 1 true) 2 true,
             balance := upd (upd st0.balance 1 7) 2 3 }

/-- A state where account 2 is alive and holds one byte of code. -/
def stCode : IBS :=
  { st0 with alive := upd st0.alive 2 true, code := upd st0.code 2 [96] }

/-- A state where account 3 (= `createAddress 1 0`, the address a `Create` from
sender 1 with nonce 0 derives) already has nonce 1. -/
def stColl : IBS :=
  { st0 with nonce := upd st0.nonce 3 1 }

/-- A state where sender 1 sits at the maximum representable `uint64` nonce. -/
def stMax : IBS :=
  { st0 with nonce := upd st0.nonce 1 (2 ^ 64 - 1) }

/-- A successful interpreter run whose deployed output is one byte longer than
`MaxCodeSize`. -/
def execBig : ExecResult :=
  ⟨List.replicate (MaxCodeSize + 1) 0, 0, 0, none⟩

/-! ### Helper lemmas shared by the claim theorems -/

theorem upd_self {α : Type} (f : Nat → α) (x : Nat) (v : α) : upd f x v x = v := by
  simp [upd]

theorem setNonce_accessList (a : Addr) (n : Nat) (s : IBS) :
    (setNonce a n s).accessList = s.accessList := rfl

theorem setCode_accessList (a : Addr) (c : List Nat) (s : IBS) :
    (setCode a c s).accessList = s.accessList := rfl

theorem createAccount_accessList (a : Addr) (b : Bool) (s : IBS) :
    (createAccount a b s).accessList = s.accessList := rfl

theorem transfer_accessList (x y : Addr) (v : Word) (b : Bool) (s : IBS) :
    (transfer x y v b s).accessList = s.accessList := by
  unfold transfer addBalance subBalance
  split <;> rfl

theorem createPrestate_accessList_self (h : Host) (s : IBS) (sender recipient : Addr)
    (hb : h.rules.isBerlin = true) :
    (createPrestate h s sender recipient).accessList recipient = true := by
  simp [createPrestate, hb, addAddressToAccessList, upd]

theorem createPrestate_nonce (h : Host) (s : IBS) (sender recipient : Addr) :
    (createPrestate h s sender recipient).nonce
      = upd s.nonce sender ((s.nonce sender + 1) % 2 ^ 64) := by
  unfold createPrestate addAddressToAccessList setNonce
  split <;> rfl

theorem createPrestate_code (h : Host) (s : IBS) (sender recipient : Addr) :
    (createPrestate h s sender recipient).code = s.code := by
  unfold createPrestate addAddressToAccessList setNonce
  split <;> rfl

/-! ### Claim theorems -/

/-- C1: `SetStorage` classifies every (original, current, newValue) triple by the
§4.1 table with `dirty = (original ≠ current)` and `restored = (original = newValue)`:
when `!dirty ∧ !restored` it returns Added if current = 0, Deleted if newValue = 0,
else Modified; when `dirty ∧ !restored` it returns DeletedAdded if current = 0 and
newValue ≠ 0, ModifiedDeleted if current ≠ 0 and newValue = 0, else Assigned; when
`dirty ∧ restored` it returns DeletedRestored if current = 0, AddedDeleted if
newValue = 0, else ModifiedRestored; when `!dirty ∧ restored` it returns Assigned.
It is total, and in every case it writes newValue into the slot's current storage,
independent of the classification. -/
theorem setStorage_follows_table (s : IBS) (a : Addr) (k : Nat) (v : Word) :
    (SetStorage s a k v).1 =
      (if s.origStorage a k = s.storage a k then
        if s.origStorage a k = v then StorageStatus.assigned
        else if s.storage a k = 0 then StorageStatus.added
        else if v = 0 then StorageStatus.deleted
        else StorageStatus.modified
      else
        if s.origStorage a k = v then
          if s.storage a k = 0 then StorageStatus.deletedRestored
          else if v = 0 then StorageStatus.addedDeleted
          else StorageStatus.modifiedRestored
        else
          if s.storage a k = 0 ∧ ¬ v = 0 then StorageStatus.deletedAdded
          else if ¬ s.storage a k = 0 ∧ v = 0 then StorageStatus.modifiedDeleted
          else StorageStatus.assigned) ∧
    (SetStorage s a k v).2.storage a k = v := by
  constructor
  · simp only [SetStorage]
    by_cases hd : s.origStorage a k = s.storage a k <;>
      by_cases hr : s.origStorage a k = v <;>
        simp [hd, hr]
  · simp [SetStorage, setState, upd2, upd]

/-- C10: `EmitLog` adds a log record carrying the transaction origin from the
transaction context as the log's address rather than the `addr` argument, with
topics and data passed through unchanged; the `addr` argument has no effect on
the emitted log. -/
theorem emitLog_address_is_origin (h : Host) (s : IBS) (addr : Addr)
    (topics : List Word) (data : List Nat) :
    (EmitLog h s addr topics data).logs =
      s.logs ++ [{ address := h.txOrigin, topics := topics, data := data,
                   blockNumber := h.blockNumber }] ∧
    (∀ addr2 : Addr, EmitLog h s addr topics data = EmitLog h s addr2 topics data) := by
  exact ⟨rfl, fun _ => rfl⟩

/-- C9: under a revision at or above Cancun, `Selfdestruct(addr, beneficiary)`
(with distinct addresses) moves the account's entire balance to the beneficiary
unconditionally, marks the account destructed only if it was created within the
same transaction, and returns exactly the destructed mark (whether the account
is, or will be, actually removed); in particular on an account not created in
the current transaction nothing but the balance transfer happens: the mark and
the account's presence are unchanged. -/
theorem selfdestruct_cancun_eip6780 (h : Host) (s : IBS) (addr beneficiary : Addr)
    (hrev : Cancun ≤ h.rev) (hne : ¬ beneficiary = addr) :
    (Selfdestruct h s addr beneficiary).2.balance beneficiary
        = s.balance beneficiary + s.balance addr ∧
    (Selfdestruct h s addr beneficiary).2.balance addr = 0 ∧
    (Selfdestruct h s addr beneficiary).2.destructed addr
        = (s.destructed addr || (s.alive addr && s.createdInTx addr)) ∧
    (Selfdestruct h s addr beneficiary).1
        = (Selfdestruct h s addr beneficiary).2.destructed addr ∧
    (s.createdInTx addr = false →
      (Selfdestruct h s addr beneficiary).2.destructed addr = s.destructed addr ∧
      (Selfdestruct h s addr beneficiary).2.alive addr = s.alive addr) := by
  have hrev2 : h.rev ≥ Cancun := hrev
  simp only [Selfdestruct, if_pos hrev2]
  by_cases hA : s.alive addr <;> by_cases hC : s.createdInTx addr <;>
    simp [selfdestruct6780, ibsSelfdestruct, subBalance, addBalance, upd, hA, hC, hne,
      Ne.symm hne]

/-- Witness for C9: `Selfdestruct` on account 1 with beneficiary 2 in `stSd`
under `host1` (Cancun revision): the 7 wei move to the beneficiary, the account
is not marked destructed (it was not created in this transaction), remains
present, and `false` is returned. -/
theorem selfdestruct_cancun_eip6780_witness :
    Cancun ≤ host1.rev ∧ ¬ (2 : Addr) = 1 ∧
    ((Selfdestruct host1 stSd 1 2).2.balance 2 = stSd.balance 2 + stSd.balance 1 ∧
     (Selfdestruct host1 stSd 1 2).2.balance 1 = 0 ∧
     (Selfdestruct host1 stSd 1 2).2.destructed 1
        = (stSd.destructed 1 || (stSd.alive 1 && stSd.createdInTx 1)) ∧
     (Selfdestruct host1 stSd 1 2).1 = (Selfdestruct host1 stSd 1 2).2.destructed 1 ∧
     (stSd.createdInTx 1 = false →
       (Selfdestruct host1 stSd 1 2).2.destructed 1 = stSd.destructed 1 ∧
       (Selfdestruct host1 stSd 1 2).2.alive 1 = stSd.alive 1)) :=
  ⟨by decide, by decide, selfdestruct_cancun_eip6780 host1 stSd 1 2 (by decide) (by decide)⟩

/-- C2: evaluation at the failing input. A `Call` to the code-bearing account 2
whose interpreter run faults with 5 gas remaining reverts the state to the
snapshot but returns `gasLeft = 5` — the interpreter-reported remaining gas —
rather than 0: the source's `gas = 0` at line 288 assigns the dead `uint64`
parameter, not the `gasLeft` named return, so the punitive full-gas
consumption promised by its own comment (lines 282-284) never reaches the
caller. -/
theorem handleCalls_fault_keeps_interpreter_gas :
    (handleCalls host1 stCode CallKind.Call 2 1 0 [] 100 2
        ⟨[], 5, 0, some (Err.fault 0)⟩).1 = ⟨[], 5, 0, 0, some (Err.fault 0)⟩ ∧
    ¬ (handleCalls host1 stCode CallKind.Call 2 1 0 [] 100 2
        ⟨[], 5, 0, some (Err.fault 0)⟩).1.gasLeft = 0 ∧
    (handleCalls host1 stCode CallKind.Call 2 1 0 [] 100 2
        ⟨[], 5, 0, some (Err.fault 0)⟩).2 = stCode := by
  refine ⟨by decide, by decide, rfl⟩

/-- C8 counterexample: address 3 holds no code and is no precompile, yet a
`Call` carrying value 5 from sender 1 whose balance is 0 does not "succeed
trivially": it fails with `InsufficientBalance` at the balance precheck, which
runs before the empty-code short-circuit. -/
theorem handleCalls_emptyCode_not_always_success :
    st0.code 3 = [] ∧ host1.precompiles 3 = none ∧
    (handleCalls host1 st0 CallKind.Call 2 1 5 [] 100 3 ⟨[], 0, 0, none⟩).1.err
      = some Err.insufficientBalance := by
  exact ⟨rfl, rfl, by decide⟩

/-- C8 (amended): whenever the code at `codeAddress` is empty, `codeAddress`
is not a precompile, and the balance precheck does not fire (for instance when
the value is zero), `handleCalls` succeeds with nil error, empty output and
`gasLeft` equal to the gas supplied; and in the specific scenario of a `Call`
to a nonexistent recipient with zero value under Spurious Dragon the state is
returned untouched — no account is created. -/
theorem handleCalls_emptyCode_trivial_success (h : Host) (s : IBS) (kind : CallKind)
    (recipient sender : Addr) (value : Word) (input : List Nat) (gas : Nat)
    (codeAddress : Addr) (execRes : ExecResult)
    (hpre : h.precompiles codeAddress = none)
    (hcode : s.code codeAddress = [])
    (hbal : ¬ ((kind = CallKind.Call ∨ kind = CallKind.CallCode) ∧
        ¬ value = 0 ∧ ¬ canTransfer s sender value ∧ ¬ h.bailout = true)) :
    (handleCalls h s kind recipient sender value input gas codeAddress execRes).1.err
        = none ∧
    (handleCalls h s kind recipient sender value input gas codeAddress execRes).1.output
        = [] ∧
    (handleCalls h s kind recipient sender value input gas codeAddress execRes).1.gasLeft
        = Int.ofNat gas ∧
    (kind = CallKind.Call → s.alive recipient = false →
      h.rules.isSpuriousDragon = true → value = 0 →
      (handleCalls h s kind recipient sender value input gas codeAddress execRes).2 = s) := by
  simp only [handleCalls, hpre, hcode, Option.isSome_none]
  rw [if_neg hbal]
  split_ifs <;>
    exact ⟨by simp_all, by simp_all, by simp_all, fun hk hAlive hSD hv => by simp_all⟩

/-- Witness for C8 (amended): a zero-value `Call` from sender 1 to the
nonexistent account 2 with empty code at address 3 under `host1` succeeds with
empty output, unchanged gas, and an untouched state. -/
theorem handleCalls_emptyCode_trivial_success_witness :
    host1.precompiles 3 = none ∧ st0.code 3 = [] ∧
    ¬ ((CallKind.Call = CallKind.Call ∨ CallKind.Call = CallKind.CallCode) ∧
        ¬ (0 : Word) = 0 ∧ ¬ canTransfer st0 1 0 ∧ ¬ host1.bailout = true) ∧
    ((handleCalls host1 st0 CallKind.Call 2 1 0 [] 100 3 ⟨[], 0, 0, none⟩).1.err = none ∧
     (handleCalls host1 st0 CallKind.Call 2 1 0 [] 100 3 ⟨[], 0, 0, none⟩).1.output = [] ∧
     (handleCalls host1 st0 CallKind.Call 2 1 0 [] 100 3 ⟨[], 0, 0, none⟩).1.gasLeft
        = Int.ofNat 100 ∧
     (CallKind.Call = CallKind.Call → st0.alive 2 = false →
       host1.rules.isSpuriousDragon = true → (0 : Word) = 0 →
       (handleCalls host1 st0 CallKind.Call 2 1 0 [] 100 3 ⟨[], 0, 0, none⟩).2 = st0)) :=
  ⟨rfl, rfl, by decide,
    handleCalls_emptyCode_trivial_success host1 st0 CallKind.Call 2 1 0 [] 100 3
      ⟨[], 0, 0, none⟩ rfl rfl (by decide)⟩

/-- C3: evaluation at a successful `Create`. Sender 1 with nonce 0 creates a
contract whose init code deploys output `[1, 2]`: the creation succeeds (nil
error, the code is stored at the derived address 3 = `createAddress 1 0`), yet
the `createAddr` field of the result is the zero address, not the derived
recipient: the source never assigns its `createAddr` named return. -/
theorem call_create_returns_zero_createAddr :
    (Call host1 st0 CallKind.Create 0 1 0 [1, 2] 1000 0 0 ⟨[1, 2], 1000, 0, none⟩).1.err
      = none ∧
    (Call host1 st0 CallKind.Create 0 1 0 [1, 2] 1000 0 0 ⟨[1, 2], 1000, 0, none⟩).2.code 3
      = [1, 2] ∧
    createAddress 1 (st0.nonce 1) = 3 ∧
    (Call host1 st0 CallKind.Create 0 1 0 [1, 2] 1000 0 0 ⟨[1, 2], 1000, 0, none⟩).1.createAddr
      = 0 ∧
    ¬ (Call host1 st0 CallKind.Create 0 1 0 [1, 2] 1000 0 0 ⟨[1, 2], 1000, 0, none⟩).1.createAddr
      = createAddress 1 (st0.nonce 1) := by
  exact ⟨by decide, by decide, by decide, by decide, by decide⟩

/-- C6 counterexample: a `Create` from sender 1 whose nonce sits at the maximum
`uint64` value but whose balance (0) cannot cover the value (5) fails with
`InsufficientBalance`, not `NonceOverflow`: the balance precheck runs first, so
the claim's unqualified "for every creation with maximal nonce" is false. -/
theorem call_create_nonce_max_not_always_overflow :
    stMax.nonce 1 = 2 ^ 64 - 1 ∧
    (Call host1 stMax CallKind.Create 0 1 5 [] 100 0 0 ⟨[], 0, 0, none⟩).1.err
      = some Err.insufficientBalance ∧
    ¬ (Call host1 stMax CallKind.Create 0 1 5 [] 100 0 0 ⟨[], 0, 0, none⟩).1.err
      = some Err.nonceUintOverflow := by
  exact ⟨by decide, by decide, by decide⟩

/-- C6 (amended): for every creation kind, when the balance precheck passes
and the sender's nonce is the maximum representable `uint64` value, `Call`
fails with `NonceOverflow` (`ErrNonceUintOverflow`), returns the full gas
supplied, and the state is returned exactly as given — before the nonce is
incremented, the access list is touched, any snapshot is taken, or any other
mutation occurs. -/
theorem call_create_nonce_overflow (h : Host) (s : IBS) (kind : CallKind)
    (recipient sender : Addr) (value : Word) (input : List Nat) (gas : Int)
    (salt : Word) (codeAddress : Addr) (execRes : ExecResult)
    (hkind : kind = CallKind.Create ∨ kind = CallKind.Create2 ∨ kind = CallKind.EofCreate)
    (hbal : canTransfer s sender value)
    (hmax : s.nonce sender = 2 ^ 64 - 1) :
    (Call h s kind recipient sender value input gas salt codeAddress execRes).1.err
      = some Err.nonceUintOverflow ∧
    (Call h s kind recipient sender value input gas salt codeAddress execRes).1.gasLeft
      = gas ∧
    (Call h s kind recipient sender value input gas salt codeAddress execRes).2 = s := by
  have hov : (s.nonce sender + 1) % 18446744073709551616 < s.nonce sender := by
    rw [hmax]
    decide
  rcases hkind with hk | hk | hk <;> subst hk <;>
    simp [Call, hbal, hov]

/-- Witness for C6 (amended): a zero-value `Create` from sender 1 at the
maximal nonce under `host1` fails with `NonceOverflow`, keeps the 100 gas, and
leaves the state untouched. -/
theorem call_create_nonce_overflow_witness :
    (CallKind.Create = CallKind.Create ∨ CallKind.Create = CallKind.Create2 ∨
      CallKind.Create = CallKind.EofCreate) ∧
    canTransfer stMax 1 0 ∧ stMax.nonce 1 = 2 ^ 64 - 1 ∧
    ((Call host1 stMax CallKind.Create 0 1 0 [] 100 0 0 ⟨[], 0, 0, none⟩).1.err
        = some Err.nonceUintOverflow ∧
     (Call host1 stMax CallKind.Create 0 1 0 [] 100 0 0 ⟨[], 0, 0, none⟩).1.gasLeft
        = 100 ∧
     (Call host1 stMax CallKind.Create 0 1 0 [] 100 0 0 ⟨[], 0, 0, none⟩).2 = stMax) :=
  ⟨Or.inl rfl, by decide, by decide,
    call_create_nonce_overflow host1 stMax CallKind.Create 0 1 0 [] 100 0 0
      ⟨[], 0, 0, none⟩ (Or.inl rfl) (by decide) (by decide)⟩

/-- C5 counterexample: under Berlin rules, a `Create` from sender 1 whose
derived address 3 already has nonce 1 fails with `ContractAddressCollision`
and the sender's nonce is incremented once, but a further state mutation did
occur before the failure: the recipient was added to the access list (false
before the call, true after), so "no other state mutation occurs" is false. -/
theorem call_create_collision_mutates_accessList :
    (Call host1 stColl CallKind.Create 0 1 0 [] 100 0 0 ⟨[], 0, 0, none⟩).1.err
      = some Err.contractAddressCollision ∧
    (Call host1 stColl CallKind.Create 0 1 0 [] 100 0 0 ⟨[], 0, 0, none⟩).2.nonce 1 = 1 ∧
    stColl.accessList 3 = false ∧
    (Call host1 stColl CallKind.Create 0 1 0 [] 100 0 0 ⟨[], 0, 0, none⟩).2.accessList 3
      = true := by
  exact ⟨by decide, by decide, by decide, by decide⟩

/-- C5 (amended): for every `Create` where the derived recipient already holds
an account with nonzero nonce or non-empty (non-empty-hash) code, `Call` fails
with `ContractAddressCollision`, the sender's nonce has still been incremented
exactly once by that call, and the returned state is exactly the prestate of
the creation — the given state with the sender nonce bump and, when the Berlin
rules are active, the recipient's access-list entry, with no snapshot acquired
and no other mutation. -/
theorem call_create_collision_keeps_nonce (h : Host) (s : IBS)
    (recipient sender : Addr) (value : Word) (input : List Nat) (gas : Int)
    (salt : Word) (codeAddress : Addr) (execRes : ExecResult)
    (hbal : canTransfer s sender value)
    (hnof : ¬ (s.nonce sender + 1) % 2 ^ 64 < s.nonce sender)
    (hcoll : ¬ (createPrestate h s sender (createAddress sender (s.nonce sender))).nonce
          (createAddress sender (s.nonce sender)) = 0 ∨
        hasNonEmptyCodeHash (createPrestate h s sender (createAddress sender (s.nonce sender)))
          (createAddress sender (s.nonce sender)) = true) :
    (Call h s CallKind.Create recipient sender value input gas salt codeAddress execRes).1.err
      = some Err.contractAddressCollision ∧
    (Call h s CallKind.Create recipient sender value input gas salt codeAddress execRes).2
      = createPrestate h s sender (createAddress sender (s.nonce sender)) ∧
    (Call h s CallKind.Create recipient sender value input gas salt codeAddress
        execRes).2.nonce sender = (s.nonce sender + 1) % 2 ^ 64 := by
  simp only [Call]
  split_ifs <;>
    first
      | exact ⟨rfl, rfl, by rw [createPrestate_nonce]; exact upd_self s.nonce sender _⟩
      | simp_all

/-- Witness for C5 (amended): the collision run of
`call_create_collision_mutates_accessList` instantiated through the general
theorem: error, prestate equality, and the single nonce increment. -/
theorem call_create_collision_keeps_nonce_witness :
    canTransfer stColl 1 0 ∧
    ¬ (stColl.nonce 1 + 1) % 2 ^ 64 < stColl.nonce 1 ∧
    (¬ (createPrestate host1 stColl 1 (createAddress 1 (stColl.nonce 1))).nonce
          (createAddress 1 (stColl.nonce 1)) = 0 ∨
      hasNonEmptyCodeHash (createPrestate host1 stColl 1 (createAddress 1 (stColl.nonce 1)))
          (createAddress 1 (stColl.nonce 1)) = true) ∧
    ((Call host1 stColl CallKind.Create 0 1 0 [] 100 0 0 ⟨[], 0, 0, none⟩).1.err
        = some Err.contractAddressCollision ∧
     (Call host1 stColl CallKind.Create 0 1 0 [] 100 0 0 ⟨[], 0, 0, none⟩).2
        = createPrestate host1 stColl 1 (createAddress 1 (stColl.nonce 1)) ∧
     (Call host1 stColl CallKind.Create 0 1 0 [] 100 0 0 ⟨[], 0, 0, none⟩).2.nonce 1
        = (stColl.nonce 1 + 1) % 2 ^ 64) :=
  ⟨by decide, by decide, Or.inl (by decide),
    call_create_collision_keeps_nonce host1 stColl 0 1 0 [] 100 0 0 ⟨[], 0, 0, none⟩
      (by decide) (by decide) (Or.inl (by decide))⟩

/-- C4: for every `Create`/`Create2` that passes the prechecks, whose
interpreter run succeeds, and whose output is longer than `MaxCodeSize` under
fork rules with Spurious Dragon active (with the Aura exception resolved in
favour of the limit: not an Aura chain, or EIP-3860 active), `Call` fails with
`MaxCodeSizeExceeded` and the state is reverted to the pre-creation snapshot —
in particular the derived recipient is not left behind with partial code. -/
theorem call_create_oversized_code_reverts (h : Host) (s : IBS) (kind : CallKind)
    (recipient sender rcpt : Addr) (value : Word) (input : List Nat) (gas : Int)
    (salt : Word) (codeAddress : Addr) (execRes : ExecResult)
    (hkind : kind = CallKind.Create ∨ kind = CallKind.Create2)
    (hrcpt : rcpt = if kind = CallKind.Create then createAddress sender (s.nonce sender)
        else createAddress2 sender salt (keccak256 input))
    (hbal : canTransfer s sender value)
    (hnof : ¬ (s.nonce sender + 1) % 2 ^ 64 < s.nonce sender)
    (hnonce0 : (createPrestate h s sender rcpt).nonce rcpt = 0)
    (hhash : hasNonEmptyCodeHash (createPrestate h s sender rcpt) rcpt = false)
    (hok : execRes.err = none)
    (hbig : MaxCodeSize < execRes.output.length)
    (hsd : h.rules.isSpuriousDragon = true)
    (haura : h.rules.isAura = false ∨ h.config.hasEip3860 = true) :
    (Call h s kind recipient sender value input gas salt codeAddress execRes).1.err
      = some Err.maxCodeSizeExceeded ∧
    (Call h s kind recipient sender value input gas salt codeAddress execRes).2
      = createPrestate h s sender rcpt ∧
    (Call h s kind recipient sender value input gas salt codeAddress execRes).2.code rcpt
      = s.code rcpt := by
  have hcoll : ¬ (¬ (createPrestate h s sender rcpt).nonce rcpt = 0 ∨
      hasNonEmptyCodeHash (createPrestate h s sender rcpt) rcpt = true) := by
    simp [hnonce0, hhash]
  have hpow : (2 : Nat) ^ 64 = 18446744073709551616 := by norm_num
  have hnof2 : ¬ (s.nonce sender + 1) % 18446744073709551616 < s.nonce sender := by
    rwa [hpow] at hnof
  rcases hkind with hk | hk <;> subst hk <;> simp at hrcpt <;> subst hrcpt <;>
    rcases haura with h1 | h1 <;>
      simp [Call, hbal, hnof2, hcoll, hok, hbig, hsd, h1, createPrestate_code]

/-- The oversized interpreter output of `execBig` exceeds `MaxCodeSize`. -/
theorem execBig_oversized : MaxCodeSize < execBig.output.length := by
  show MaxCodeSize < (List.replicate (MaxCodeSize + 1) 0).length
  rw [List.length_replicate]
  exact Nat.lt_succ_self _

/-- Witness for C4: a `Create` from sender 1 in the empty state under `host1`
whose interpreter run returns `MaxCodeSize + 1` bytes fails with
`MaxCodeSizeExceeded` and hands back the pre-creation snapshot state. -/
theorem call_create_oversized_code_reverts_witness :
    (CallKind.Create = CallKind.Create ∨ CallKind.Create = CallKind.Create2) ∧
    ((3 : Addr) = if CallKind.Create = CallKind.Create
        then createAddress 1 (st0.nonce 1) else createAddress2 1 0 (keccak256 [])) ∧
    canTransfer st0 1 0 ∧
    ¬ (st0.nonce 1 + 1) % 2 ^ 64 < st0.nonce 1 ∧
    (createPrestate host1 st0 1 3).nonce 3 = 0 ∧
    hasNonEmptyCodeHash (createPrestate host1 st0 1 3) 3 = false ∧
    execBig.err = none ∧
    MaxCodeSize < execBig.output.length ∧
    host1.rules.isSpuriousDragon = true ∧
    (host1.rules.isAura = false ∨ host1.config.hasEip3860 = true) ∧
    ((Call host1 st0 CallKind.Create 0 1 0 [] 100 0 0 execBig).1.err
        = some Err.maxCodeSizeExceeded ∧
     (Call host1 st0 CallKind.Create 0 1 0 [] 100 0 0 execBig).2
        = createPrestate host1 st0 1 3 ∧
     (Call host1 st0 CallKind.Create 0 1 0 [] 100 0 0 execBig).2.code 3 = st0.code 3) :=
  ⟨Or.inl rfl, by decide, by decide, by decide, by decide, by decide, rfl,
    execBig_oversized,
    rfl, Or.inl rfl,
    call_create_oversized_code_reverts host1 st0 CallKind.Create 0 1 3 0 [] 100 0 0
      execBig (Or.inl rfl) (by decide) (by decide) (by decide) (by decide) (by decide)
      rfl execBig_oversized rfl (Or.inl rfl)⟩

set_option maxHeartbeats 1600000 in
/-- C7: for every creation (`Create` or `Create2`) executed under fork rules
with Berlin active that passes the balance and nonce-overflow prechecks, the
derived recipient is added to the access list before the snapshot is
acquired, and its membership survives every subsequent outcome — collision
failure, interpreter fault, validation failure with snapshot revert, or
success: the final state always has the recipient in the access list. -/
theorem call_create_accessList_persists (h : Host) (s : IBS) (kind : CallKind)
    (recipient sender rcpt : Addr) (value : Word) (input : List Nat) (gas : Int)
    (salt : Word) (codeAddress : Addr) (execRes : ExecResult)
    (hberlin : h.rules.isBerlin = true)
    (hkind : kind = CallKind.Create ∨ kind = CallKind.Create2)
    (hrcpt : rcpt = if kind = CallKind.Create then createAddress sender (s.nonce sender)
        else createAddress2 sender salt (keccak256 input))
    (hbal : canTransfer s sender value)
    (hnof : ¬ (s.nonce sender + 1) % 2 ^ 64 < s.nonce sender) :
    (Call h s kind recipient sender value input gas salt codeAddress execRes).2.accessList
      rcpt = true := by
  have hpow : (2 : Nat) ^ 64 = 18446744073709551616 := by norm_num
  have hnof2 : ¬ (s.nonce sender + 1) % 18446744073709551616 < s.nonce sender := by
    rwa [hpow] at hnof
  rcases hkind with hk | hk <;> subst hk <;> simp at hrcpt <;> subst hrcpt <;>
    simp [Call, hbal, hnof2] <;> split_ifs <;>
      simp [createPrestate_accessList_self, transfer_accessList,
        createAccount_accessList, setNonce_accessList, setCode_accessList, hberlin]

/-- Witness for C7: a `Create` from sender 1 in the empty state under `host1`
(Berlin active) whose interpreter run faults — so the creation fails and is
reverted to the snapshot — still leaves the derived recipient 3 in the access
list. -/
theorem call_create_accessList_persists_witness :
    host1.rules.isBerlin = true ∧
    (CallKind.Create = CallKind.Create ∨ CallKind.Create = CallKind.Create2) ∧
    ((3 : Addr) = if CallKind.Create = CallKind.Create
        then createAddress 1 (st0.nonce 1) else createAddress2 1 0 (keccak256 [])) ∧
    canTransfer st0 1 0 ∧
    ¬ (st0.nonce 1 + 1) % 2 ^ 64 < st0.nonce 1 ∧
    (Call host1 st0 CallKind.Create 0 1 0 [] 100 0 0
        ⟨[], 0, 0, some (Err.fault 0)⟩).2.accessList 3 = true :=
  ⟨rfl, Or.inl rfl, by decide, by decide, by decide,
    call_create_accessList_persists host1 st0 CallKind.Create 0 1 3 0 [] 100 0 0
      ⟨[], 0, 0, some (Err.fault 0)⟩ rfl (Or.inl rfl) (by decide) (by decide) (by decide)⟩

end EvmoneGo
